import Mathlib

/-!
Verification of the flona_v1 chat core (client-side room session manager,
identity resolver / name cache, message history route, and the message
input component) against its natural-language specification.

The TypeScript source is embedded shallowly:

* `generateAnonymousName` models the fallback-name generator in
  `src/app/components/Chat/ChatRoom.tsx` (lines 21-37).  JavaScript
  32-bit integer coercion (the `<< 5`, `& hash` steps) is made explicit
  through `toInt32`; the `charCodeAt` sequence of a string is modelled by the
  code points of its characters (exact for all BMP strings, and emails
  are ASCII).
* `getFlonaName` models the cached identity resolver (lines 61-83).
* The room view state and its event handlers model the history seeding,
  live-message, typing and presence subscription callbacks.
* `getMessages` models the GET handler of the `/api/messages` route.
* `handleSendFlow` / `sendMessage` model the send path of the input
  component together with `ChatRoom.sendMessage`.

Network effects are made explicit as outcome parameters (`LookupResult`,
`PersistOutcome`, `PublishOutcome`); since the JavaScript runtime is
single threaded, each handler is a pure state transformer.
-/

/-- Wrap an integer to a signed 32-bit value, as JavaScript bitwise
operators (`<<`, `&`, `>>`) do via ToInt32. -/
def toInt32 (n : Int) : Int :=
  (n + 2147483648) % 4294967296 - 2147483648

/-- One step of the rolling hash exactly as the source writes it:
`hash = ((hash << 5) - hash) + char` followed by `hash = hash & hash`.
`hash << 5` coerces to int32, shifts (wrapping), the subtraction and
addition are exact, and `hash & hash` wraps the result to int32. -/
def hashStepCode (h : Int) (c : Nat) : Int :=
  toInt32 (toInt32 (toInt32 h * 32) - h + (c : Int))

/-- One step of the rolling hash as the specification words it:
`hash = hash*31 + charCode`, wrapped to signed 32-bit. -/
def hashStepSpec (h : Int) (c : Nat) : Int :=
  toInt32 (31 * h + (c : Int))

/-- The UTF-16 code-unit sequence of a string, modelled by the code
points of its characters (identical for all BMP strings). -/
def charCodes (s : String) : List Nat :=
  s.data.map Char.toNat

/-- The fixed adjective list of `generateAnonymousName`. -/
def adjectives : List String :=
  ["Happy", "Bright", "Quick", "Clever", "Swift", "Bold", "Calm", "Cool", "Keen", "Nice"]

/-- The fixed animal list of `generateAnonymousName`. -/
def animals : List String :=
  ["Panda", "Eagle", "Tiger", "Wolf", "Fox", "Hawk", "Owl", "Dolphin", "Phoenix", "Dragon"]

/-- `generateAnonymousName` from `ChatRoom.tsx` lines 21-37: rolling hash
over the characters of the identifier, then
`Math.abs(hash) % adjectives.length` and
`Math.abs(hash >> 8) % animals.length` (arithmetic right shift by 8 on an
int32 is floor division by 256), joined as "Adjective Animal". -/
def generateAnonymousName (email : String) : String :=
  let hash := (charCodes email).foldl hashStepCode 0
  let adjIndex := hash.natAbs % adjectives.length
  let animIndex := (Int.fdiv hash 256).natAbs % animals.length
  adjectives.getD adjIndex "" ++ " " ++ animals.getD animIndex ""

/-- The reference fallback-name algorithm of the specification, written
from the words of the spec: rolling hash `hash = hash*31 + charCode` wrapped to
signed 32-bit, adjective index `abs(hash) mod (adjective list size)`,
noun index `abs(hash >> 8) mod (animal list size)`, concatenated as
"Adjective Noun" over the same two fixed ordered word lists. -/
def specAnonymousName (email : String) : String :=
  let hash := (charCodes email).foldl hashStepSpec 0
  let adjIndex := hash.natAbs % adjectives.length
  let animIndex := (Int.fdiv hash 256).natAbs % animals.length
  adjectives.getD adjIndex "" ++ " " ++ animals.getD animIndex ""

theorem hashStepCode_eq_spec (h : Int) (c : Nat) :
    hashStepCode h c = hashStepSpec h c := by
  simp only [hashStepCode, hashStepSpec, toInt32]
  omega

theorem foldl_hashStepCode_eq_spec (codes : List Nat) (h : Int) :
    codes.foldl hashStepCode h = codes.foldl hashStepSpec h := by
  induction codes generalizing h with
  | nil => rfl
  | cons c cs ih => simp only [List.foldl_cons, hashStepCode_eq_spec, ih]

/-- Claim C7: for every identifier string, the fallback name generated
by the code equals the one of the reference algorithm: the step
`((hash << 5) - hash) + char` followed by `hash & hash` computes exactly
`hash*31 + charCode` wrapped to signed 32-bit, and the two indexing
rules coincide. -/
theorem generateAnonymousName_matches_spec (email : String) :
    generateAnonymousName email = specAnonymousName email := by
  simp only [generateAnonymousName, specAnonymousName, foldl_hashStepCode_eq_spec]

/-- Outcome of the `fetch("/api/user/flona-name?...")` lookup in
`getFlonaName`: a successful response carrying `data.flonaName`
(`none` models a null/absent field, and the code also treats the empty
string as absent via `||`), a non-success HTTP status, or a thrown
network error. -/
inductive LookupResult where
  | ok (flonaName : Option String)
  | httpError
  | threw
deriving DecidableEq

/-- The usable display name a lookup outcome yields, if any: only a
successful response with a truthy `flonaName` field yields one. -/
def lookupYieldsName : LookupResult → Option String
  | LookupResult.ok (some n) => if n = "" then none else some n
  | LookupResult.ok none => none
  | LookupResult.httpError => none
  | LookupResult.threw => none

/-- Result of one `getFlonaName` call: the resolved name, the cache
afterwards (newest entry first, as `Map.set` then lookup-first-match),
and whether an outbound fetch was issued. -/
structure NameLookup where
  name : String
  cache : List (String × String)
  didFetch : Bool
deriving DecidableEq

/-- `getFlonaName` from `ChatRoom.tsx` lines 61-83: return the cached
name when present (no fetch); otherwise fetch.  On a successful
response, use `data.flonaName || generateAnonymousName(email)` and
cache it; on a non-success status or a thrown error, fall through to
the generated fallback and cache that. -/
def getFlonaName (cache : List (String × String)) (email : String)
    (store : LookupResult) : NameLookup :=
  match cache.lookup email with
  | some n => ⟨n, cache, false⟩
  | none =>
    match store with
    | LookupResult.ok flona =>
      let flonaName :=
        match flona with
        | some n => if n = "" then generateAnonymousName email else n
        | none => generateAnonymousName email
      ⟨flonaName, (email, flonaName) :: cache, true⟩
    | LookupResult.httpError =>
      let fallback := generateAnonymousName email
      ⟨fallback, (email, fallback) :: cache, true⟩
    | LookupResult.threw =>
      let fallback := generateAnonymousName email
      ⟨fallback, (email, fallback) :: cache, true⟩

/-- Claim C6: with no cached entry and the identity store unavailable or
without an entry, `getFlonaName` degrades to the deterministic fallback
name, caches it, and a second call for the same identifier returns the
identical name through the cache with no outbound lookup, whatever the
store would do on the second call. -/
theorem getFlonaName_deterministic_fallback
    (cache : List (String × String)) (email : String)
    (store1 store2 : LookupResult)
    (hmiss : cache.lookup email = none)
    (hfail : lookupYieldsName store1 = none) :
    (getFlonaName cache email store1).name = generateAnonymousName email ∧
    (getFlonaName (getFlonaName cache email store1).cache email store2).name
      = generateAnonymousName email ∧
    (getFlonaName (getFlonaName cache email store1).cache email store2).didFetch
      = false := by
  have hname : (getFlonaName cache email store1).name = generateAnonymousName email := by
    cases store1 with
    | ok flona =>
      cases flona with
      | none => simp [getFlonaName, hmiss]
      | some n =>
        by_cases hn : n = ""
        · simp [getFlonaName, hmiss, hn]
        · simp [lookupYieldsName, hn] at hfail
    | httpError => simp [getFlonaName, hmiss]
    | threw => simp [getFlonaName, hmiss]
  have hcache : (getFlonaName cache email store1).cache
      = (email, (getFlonaName cache email store1).name) :: cache := by
    cases store1 with
    | ok flona =>
      cases flona with
      | none => simp [getFlonaName, hmiss]
      | some n =>
        by_cases hn : n = ""
        · simp [getFlonaName, hmiss, hn]
        · simp [lookupYieldsName, hn] at hfail
    | httpError => simp [getFlonaName, hmiss]
    | threw => simp [getFlonaName, hmiss]
  refine ⟨hname, ?_, ?_⟩
  · rw [hcache, hname]
    simp [getFlonaName, List.lookup]
  · rw [hcache]
    simp [getFlonaName, List.lookup]

/-- Witness for C6 at a concrete identifier with an empty cache and a
throwing identity store on both calls. -/
theorem getFlonaName_deterministic_fallback_witness :
    ([] : List (String × String)).lookup "user@kgpian.iitkgp.ac.in" = none ∧
    lookupYieldsName LookupResult.threw = none ∧
    ((getFlonaName [] "user@kgpian.iitkgp.ac.in" LookupResult.threw).name
       = generateAnonymousName "user@kgpian.iitkgp.ac.in" ∧
     (getFlonaName (getFlonaName [] "user@kgpian.iitkgp.ac.in" LookupResult.threw).cache
        "user@kgpian.iitkgp.ac.in" LookupResult.threw).name
       = generateAnonymousName "user@kgpian.iitkgp.ac.in" ∧
     (getFlonaName (getFlonaName [] "user@kgpian.iitkgp.ac.in" LookupResult.threw).cache
        "user@kgpian.iitkgp.ac.in" LookupResult.threw).didFetch = false) :=
  ⟨rfl, rfl,
    getFlonaName_deterministic_fallback [] "user@kgpian.iitkgp.ac.in"
      LookupResult.threw LookupResult.threw rfl rfl⟩

/-- The `Message` interface of `ChatRoom.tsx` (reactions omitted: both
the history route and the live handler always produce an empty record). -/
structure ChatMessage where
  id : String
  text : String
  userName : String
  userEmail : String
  timestamp : Int
deriving DecidableEq

/-- A presence member as held in the `onlineUsers` state. -/
structure PresenceMember where
  clientId : String
  memberName : String
deriving DecidableEq

/-- JavaScript `new Set(list)` flattened back to a list: keeps the first
occurrence of each element, in insertion order. -/
def jsSetOfList (l : List String) : List String :=
  l.foldl (fun acc x => if acc.contains x then acc else acc ++ [x]) []

/-- The mutable view-model state of one mounted `ChatRoom` surface:
`messages`/`typingUsers`/`onlineUsers` React state, plus the
`messageIdsRef` dedup set and the `flonaNameCacheRef` name cache. -/
structure ChatViewState where
  messages : List ChatMessage
  messageIds : List String
  nameCache : List (String × String)
  typingUsers : List String
  onlineUsers : List PresenceMember
deriving DecidableEq

/-- The state of a freshly mounted surface. -/
def emptyChatState : ChatViewState :=
  ⟨[], [], [], [], []⟩

/-- History seeding in `setupChat` (`ChatRoom.tsx` lines 264-282):
`setMessages(historicalMessages)` replaces the visible list, then every
id of each loaded message is added to the dedup set and, when both
fields are non-empty, the author name is cached. -/
def seedHistory (st : ChatViewState) (hist : List ChatMessage) : ChatViewState :=
  { st with
    messages := hist
    messageIds := st.messageIds ++ hist.map ChatMessage.id
    nameCache := hist.foldl
      (fun c m => if m.userEmail ≠ "" ∧ m.userName ≠ "" then (m.userEmail, m.userName) :: c else c)
      st.nameCache }

/-- The live-message subscription handler (`ChatRoom.tsx` lines
289-312).  `serial` is `messageEvent.message.serial` coerced to a string
("" for a falsy value), `nowId` is the `Date.now().toString()` fallback,
`clientEmail` is `messageEvent.message.clientId` with a falsy value
coerced to the empty string.  The dedup check
and the insert both happen before the (modelled) suspension of
`getFlonaName`. -/
def onMessageEvent (st : ChatViewState) (serial nowId clientEmail text : String)
    (ts : Int) (store : LookupResult) : ChatViewState :=
  let messageId := if serial = "" then nowId else serial
  if st.messageIds.contains messageId then st
  else
    let ids := messageId :: st.messageIds
    let resolved :=
      if clientEmail = "" then (("Anonymous" : String), st.nameCache)
      else
        let r := getFlonaName st.nameCache clientEmail store
        (r.name, r.cache)
    { st with
      messageIds := ids
      nameCache := resolved.2
      messages := st.messages ++ [⟨messageId, text, resolved.1, clientEmail, ts⟩] }

/-- Claim C1: a history load seeding ids [m1, m2] followed by a live
delivery carrying id m1 leaves the state unchanged — the handler finds
m1 in the dedup set and discards the event — so the visible message
list still has exactly the 2 seeded entries. -/
theorem message_dedup_collapses
    (m1 m2 : ChatMessage) (h1 : m1.id ≠ "")
    (nowId clientEmail text : String) (ts : Int) (store : LookupResult) :
    onMessageEvent (seedHistory emptyChatState [m1, m2]) m1.id nowId clientEmail text ts store
      = seedHistory emptyChatState [m1, m2] ∧
    (onMessageEvent (seedHistory emptyChatState [m1, m2]) m1.id nowId clientEmail text ts store).messages.length
      = 2 := by
  have hmem : m1.id ∈ (seedHistory emptyChatState [m1, m2]).messageIds := by
    simp [seedHistory, emptyChatState]
  have hst : onMessageEvent (seedHistory emptyChatState [m1, m2]) m1.id nowId clientEmail text ts store
      = seedHistory emptyChatState [m1, m2] := by
    simp [onMessageEvent, h1, hmem]
  refine ⟨hst, ?_⟩
  rw [hst]
  simp [seedHistory, emptyChatState]

/-- Witness for C1 at two concrete seeded messages and a concrete
redelivery of the first one. -/
theorem message_dedup_collapses_witness :
    (ChatMessage.mk "m1" "hello" "Happy Panda" "a@x" 1).id ≠ "" ∧
    (onMessageEvent
        (seedHistory emptyChatState
          [⟨"m1", "hello", "Happy Panda", "a@x", 1⟩, ⟨"m2", "hi", "Cool Fox", "b@x", 2⟩])
        "m1" "1700000000000" "a@x" "hello" 1 LookupResult.threw
      = seedHistory emptyChatState
          [⟨"m1", "hello", "Happy Panda", "a@x", 1⟩, ⟨"m2", "hi", "Cool Fox", "b@x", 2⟩] ∧
    (onMessageEvent
        (seedHistory emptyChatState
          [⟨"m1", "hello", "Happy Panda", "a@x", 1⟩, ⟨"m2", "hi", "Cool Fox", "b@x", 2⟩])
        "m1" "1700000000000" "a@x" "hello" 1 LookupResult.threw).messages.length = 2) :=
  ⟨by decide,
    message_dedup_collapses
      ⟨"m1", "hello", "Happy Panda", "a@x", 1⟩ ⟨"m2", "hi", "Cool Fox", "b@x", 2⟩
      (by decide) "1700000000000" "a@x" "hello" 1 LookupResult.threw⟩

/-- The resolution loop of the typing handler: resolve each identifier
in order with `getFlonaName`, threading the name cache through the
iterations, collecting names in order. -/
def resolveNamesLoop (cache : List (String × String)) (emails : List String)
    (store : String → LookupResult) : List String × List (String × String) :=
  emails.foldl
    (fun acc e =>
      let r := getFlonaName acc.2 e (store e)
      (acc.1 ++ [r.name], r.cache))
    ([], cache)

/-- The typing subscription handler (`ChatRoom.tsx` lines 324-341):
build a set from `typingEvent.currentlyTyping`, delete the email of the
local user when one is present, resolve every remaining email to a flona
name, and replace `typingUsers` with the new name set wholesale. -/
def onTypingEvent (st : ChatViewState) (currentlyTyping : List String)
    (localEmail : String) (store : String → LookupResult) : ChatViewState :=
  let typingSet := jsSetOfList currentlyTyping
  let typingSet :=
    if localEmail ≠ "" then typingSet.filter (fun e => e ≠ localEmail) else typingSet
  let resolved := resolveNamesLoop st.nameCache typingSet store
  { st with typingUsers := jsSetOfList resolved.1, nameCache := resolved.2 }

/-- Modelled from the words of the spec for the typing delivery handler:
take the full currently-typing identifier set of the event, remove the
own identifier of the local user, resolve each remaining identifier to a display
name, and take the resulting name set — a function of the event, the
local identifier and the name cache only, never of the previous typing
set. -/
def typingNamesSpec (cache : List (String × String)) (currentlyTyping : List String)
    (localEmail : String) (store : String → LookupResult) : List String :=
  let remaining := (jsSetOfList currentlyTyping).filter (fun e => e ≠ localEmail)
  jsSetOfList (resolveNamesLoop cache remaining store).1

/-- Claim C8: for a local user with a non-empty identifier, the typing
new typing-name set of the handler is exactly the wholesale replacement
the spec demands — the identifier set of the event minus the local one,
each resolved to a display name — computed from the event and the name
cache alone, independent of the previously held typing set. -/
theorem onTypingEvent_excludes_local_wholesale
    (st : ChatViewState) (currentlyTyping : List String)
    (localEmail : String) (store : String → LookupResult)
    (hlocal : localEmail ≠ "") :
    (onTypingEvent st currentlyTyping localEmail store).typingUsers
      = typingNamesSpec st.nameCache currentlyTyping localEmail store := by
  simp [onTypingEvent, typingNamesSpec, hlocal]

/-- Witness for C8: the identifier of the local user appears in the
currently-typing set of the event and the rendered set is the wholesale replacement
that excludes it. -/
theorem onTypingEvent_excludes_local_wholesale_witness :
    ("me@x" : String) ≠ "" ∧
    (onTypingEvent emptyChatState ["me@x", "other@x"] "me@x" (fun _ => LookupResult.threw)).typingUsers
      = typingNamesSpec emptyChatState.nameCache ["me@x", "other@x"] "me@x"
          (fun _ => LookupResult.threw) :=
  ⟨by decide,
    onTypingEvent_excludes_local_wholesale emptyChatState ["me@x", "other@x"] "me@x"
      (fun _ => LookupResult.threw) (by decide)⟩

/-- The presence subscription handler (`ChatRoom.tsx` lines 344-351):
the event payload is ignored; when the room ref is still set, the full
member list is re-queried (`presence.get()`) and `onlineUsers` is
replaced with the query result wholesale. -/
def onPresenceEvent (st : ChatViewState) (_eventPayload : String)
    (roomPresent : Bool) (queryResult : List PresenceMember) : ChatViewState :=
  if roomPresent then { st with onlineUsers := queryResult } else st

/-- Claim C9: with the room handle present, the result of the presence
handler is independent of the event payload and replaces the presence
set wholesale with the re-queried member list — so an empty query
result empties the rendered set rather than merging with the previous
one. -/
theorem onPresenceEvent_wholesale_replace
    (st : ChatViewState) (payload otherPayload : String)
    (queryResult : List PresenceMember) :
    onPresenceEvent st payload true queryResult
      = onPresenceEvent st otherPayload true queryResult ∧
    (onPresenceEvent st payload true queryResult).onlineUsers = queryResult ∧
    (onPresenceEvent st payload true []).onlineUsers = [] := by
  simp [onPresenceEvent]

/-- The lifecycle state of one `ChatRoom` surface, as held in its refs:
the `isInitializedRef` guard flag, whether `realtimeClientRef` holds a
client whose connection state is `connected`, whether the chat client
and the room handle exist, the number of registered subscriptions, and
counters for the observable transport effects (constructions of a new
realtime client, i.e. connection attempts, and room attach calls). -/
structure SetupState where
  isInitialized : Bool
  clientConnected : Bool
  hasChatClient : Bool
  hasRoom : Bool
  subscriptionCount : Nat
  connectionAttempts : Nat
  attachAttempts : Nat
deriving DecidableEq

/-- The refs of a freshly mounted surface. -/
def freshSetupState : SetupState :=
  ⟨false, false, false, false, 0, 0, 0⟩

/-- `setupChat` from `ChatRoom.tsx` lines 160-372, collapsed over its
suspension points.  The `isInitializedRef` guard is checked and then set
synchronously before the first `await`, so any re-entrant call made
while a prior activation is pending (Connecting/RoomJoining) or after it
became Active observes `isInitialized = true` and returns immediately.
A new realtime client is constructed (one connection attempt) only when
no connected client exists; the room is obtained and attached only when
no room handle exists; subscriptions are registered only when none are;
on a connect or attach failure the catch resets the guard flag so a
later activation can retry. -/
def setupChat (st : SetupState) (hasSession connectOk attachOk : Bool) : SetupState :=
  if st.isInitialized then st
  else if hasSession = false then st
  else
    let needClient := st.clientConnected = false
    let attempts := st.connectionAttempts + (if needClient then 1 else 0)
    if needClient ∧ connectOk = false then
      { st with connectionAttempts := attempts, isInitialized := false }
    else
      let st1 : SetupState :=
        { st with
          isInitialized := true
          clientConnected := true
          hasChatClient := true
          connectionAttempts := attempts }
      let needRoom := st1.hasRoom = false
      let attach := st1.attachAttempts + (if needRoom then 1 else 0)
      if needRoom ∧ attachOk = false then
        { st1 with attachAttempts := attach, isInitialized := false }
      else
        { st1 with
          hasRoom := true
          attachAttempts := attach
          subscriptionCount := if st1.subscriptionCount = 0 then 4 else st1.subscriptionCount }

theorem setupChat_guarded (st : SetupState) (s c a : Bool)
    (hinit : st.isInitialized = true) : setupChat st s c a = st := by
  simp [setupChat, hinit]

theorem setupChat_fresh_run :
    setupChat freshSetupState true true true = ⟨true, true, true, true, 4, 1, 1⟩ := by
  decide

/-- Claim C5: activation is idempotent.  While an activation is pending
or the surface is Active the guard flag is set, and any further
`setupChat` call is a no-op; in particular a fresh surface activated
twice (or re-rendered any number of times) performs exactly one
connection attempt, one room attach, and registers the four
subscriptions exactly once. -/
theorem setupChat_idempotent
    (st : SetupState) (s c a : Bool) (hinit : st.isInitialized = true) :
    setupChat st s c a = st ∧
    (∀ s2 c2 a2 : Bool,
      setupChat (setupChat freshSetupState true true true) s2 c2 a2
        = setupChat freshSetupState true true true) ∧
    (setupChat (setupChat freshSetupState true true true) true true true).connectionAttempts = 1 ∧
    (setupChat (setupChat freshSetupState true true true) true true true).attachAttempts = 1 ∧
    (setupChat (setupChat freshSetupState true true true) true true true).subscriptionCount = 4 := by
  refine ⟨setupChat_guarded st s c a hinit, ?_, ?_, ?_, ?_⟩
  · intro s2 c2 a2
    rw [setupChat_fresh_run]
    exact setupChat_guarded _ s2 c2 a2 rfl
  · rw [setupChat_fresh_run, setupChat_guarded _ true true true rfl]
  · rw [setupChat_fresh_run, setupChat_guarded _ true true true rfl]
  · rw [setupChat_fresh_run, setupChat_guarded _ true true true rfl]

/-- Witness for C5 at a concrete Active state. -/
theorem setupChat_idempotent_witness :
    (SetupState.mk true true true true 4 1 1).isInitialized = true ∧
    (setupChat ⟨true, true, true, true, 4, 1, 1⟩ true true true
        = ⟨true, true, true, true, 4, 1, 1⟩ ∧
     (∀ s2 c2 a2 : Bool,
       setupChat (setupChat freshSetupState true true true) s2 c2 a2
         = setupChat freshSetupState true true true) ∧
     (setupChat (setupChat freshSetupState true true true) true true true).connectionAttempts = 1 ∧
     (setupChat (setupChat freshSetupState true true true) true true true).attachAttempts = 1 ∧
     (setupChat (setupChat freshSetupState true true true) true true true).subscriptionCount = 4) :=
  ⟨rfl, setupChat_idempotent ⟨true, true, true, true, 4, 1, 1⟩ true true true rfl⟩

/-- The persistent refs torn down (or deliberately kept) by the unmount
cleanup effect.  Handles are modelled as numeric tokens so that "left
untouched" is expressible as equality of the held handle. -/
structure SessionRefs where
  realtimeClient : Option Nat
  chatClient : Option Nat
  currentRoom : Option Nat
  subscriptions : List Nat
  messageIds : List String
  isInitialized : Bool
deriving DecidableEq

/-- What the unmount cleanup produced: the refs afterwards, the
subscriptions on which `unsubscribe()` was called, the rooms on which
`detach()` was called, and the clients on which a destroy/close was
called. -/
structure CleanupEffects where
  refs : SessionRefs
  unsubscribed : List Nat
  detachedRooms : List Nat
  destroyedClients : List Nat
deriving DecidableEq

/-- The unmount cleanup effect (`ChatRoom.tsx` lines 384-415): call
`unsubscribe()` on every registered subscription and empty the list;
`detach()` the room when one is held and null the ref; clear the
`messageIdsRef` dedup set; reset `isInitializedRef`; never destroy the
realtime client or the chat client. -/
def cleanupOnUnmount (r : SessionRefs) : CleanupEffects :=
  let unsubscribed := r.subscriptions
  let r1 : SessionRefs := { r with subscriptions := [] }
  let detachStep :=
    match r1.currentRoom with
    | some room => ([room], { r1 with currentRoom := none })
    | none => (([] : List Nat), r1)
  let r2 := detachStep.2
  let r3 : SessionRefs := { r2 with messageIds := [] }
  let r4 : SessionRefs := { r3 with isInitialized := false }
  ⟨r4, unsubscribed, detachStep.1, []⟩

/-- Claim C10: on true unmount every registered subscription is
cancelled and the list emptied, the room handle is detached and nulled
out, the dedup set is cleared, and the init flag is reset, while the
realtime client and the chat client are left exactly as they were and
no client is destroyed. -/
theorem cleanupOnUnmount_frame (r : SessionRefs) :
    (cleanupOnUnmount r).unsubscribed = r.subscriptions ∧
    (cleanupOnUnmount r).refs.subscriptions = [] ∧
    (cleanupOnUnmount r).detachedRooms = r.currentRoom.toList ∧
    (cleanupOnUnmount r).refs.currentRoom = none ∧
    (cleanupOnUnmount r).refs.messageIds = [] ∧
    (cleanupOnUnmount r).refs.isInitialized = false ∧
    (cleanupOnUnmount r).refs.realtimeClient = r.realtimeClient ∧
    (cleanupOnUnmount r).refs.chatClient = r.chatClient ∧
    (cleanupOnUnmount r).destroyedClients = [] := by
  cases hr : r.currentRoom with
  | none => simp [cleanupOnUnmount, hr]
  | some room => simp [cleanupOnUnmount, hr]

/-- Outcome of the persistence step of `sendMessage` (the
POST fetch to the messages route): a successful response,
a response with a non-success status, or a thrown network error. -/
inductive PersistOutcome where
  | ok
  | httpError
  | threw
deriving DecidableEq

/-- Outcome of the publish step (`room.messages.send`). -/
inductive PublishOutcome where
  | ok
  | threw
deriving DecidableEq

/-- A network-boundary call that `sendMessage` issues, in order. -/
inductive SendStep where
  | persistCall
  | publishCall
deriving DecidableEq

/-- The observable outcome of one `sendMessage` run: which network calls
were issued (in order), whether the database-save failure was logged
(the console.error for a failed database save), and whether the user
was alerted (the "Failed to send message" alert). -/
structure SendResult where
  steps : List SendStep
  persistFailureLogged : Bool
  alerted : Bool
deriving DecidableEq

/-- `sendMessage` from `ChatRoom.tsx` lines 85-120.  With no room or no
session it returns at once.  Otherwise it persists first; a thrown
persistence call is caught by the outer try/catch, which logs, alerts
and ends the run before any publish; a non-success response is only
logged and the run proceeds to publish; a thrown publish is caught by
the same catch, which logs and alerts. -/
def sendMessage (roomPresent sessionPresent : Bool)
    (persist : PersistOutcome) (publish : PublishOutcome) : SendResult :=
  if roomPresent = false ∨ sessionPresent = false then
    ⟨[], false, false⟩
  else
    match persist with
    | PersistOutcome.threw => ⟨[SendStep.persistCall], false, true⟩
    | PersistOutcome.httpError =>
      match publish with
      | PublishOutcome.ok => ⟨[SendStep.persistCall, SendStep.publishCall], true, false⟩
      | PublishOutcome.threw => ⟨[SendStep.persistCall, SendStep.publishCall], true, true⟩
    | PersistOutcome.ok =>
      match publish with
      | PublishOutcome.ok => ⟨[SendStep.persistCall, SendStep.publishCall], false, false⟩
      | PublishOutcome.threw => ⟨[SendStep.persistCall, SendStep.publishCall], false, true⟩

/-- Counterexample to C4 as stated: with an active room and session, a
persistence step that fails by throwing does not let the publish
proceed — only the persist call is issued — and the failure is not
merely logged: the user is alerted and the send is aborted. -/
theorem sendMessage_persist_throw_aborts_cex :
    (sendMessage true true PersistOutcome.threw PublishOutcome.ok).steps
      = [SendStep.persistCall] ∧
    SendStep.publishCall ∉ (sendMessage true true PersistOutcome.threw PublishOutcome.ok).steps ∧
    (sendMessage true true PersistOutcome.threw PublishOutcome.ok).alerted = true := by
  decide

/-- Claim C4 as amended: with an active room and session the message is
always persisted first and published after; when the persistence step
fails with a non-success response status the failure is only logged and
the publish still proceeds; but when the persistence call throws, the
send is aborted before the publish and the user is alerted. -/
theorem sendMessage_order_and_persist_tolerance
    (persist : PersistOutcome) (publish : PublishOutcome) :
    (sendMessage true true persist publish).steps
      = (if persist = PersistOutcome.threw then [SendStep.persistCall]
         else [SendStep.persistCall, SendStep.publishCall]) ∧
    (sendMessage true true persist publish).persistFailureLogged
      = (persist == PersistOutcome.httpError) ∧
    (sendMessage true true persist publish).alerted
      = (if persist = PersistOutcome.threw then true else publish == PublishOutcome.threw) := by
  cases persist <;> cases publish <;> decide

/-- The send path of the input component (`MessageInput.handleSend`,
`src/unnamed/part_003` lines 23-38) combined with `sendMessage`: when
the trimmed text is non-empty, `onSend(text.trim())` is invoked and
the field is reset to the empty string synchronously right after — the
async send is not awaited — so the final input text never depends on
the outcome of the send. -/
structure SendFlowResult where
  inputText : String
  sentText : Option String
  alerted : Bool
deriving DecidableEq

/-- JavaScript `String.prototype.trim`, modelled executably: drop
whitespace from both ends. -/
def jsTrim (s : String) : String :=
  ⟨((s.data.dropWhile Char.isWhitespace).reverse.dropWhile Char.isWhitespace).reverse⟩

/-- One user-initiated send through the input component.  `input` is the
current field text; the remaining parameters are the environment of the
inner `sendMessage` call. -/
def handleSendFlow (input : String) (roomPresent sessionPresent : Bool)
    (persist : PersistOutcome) (publish : PublishOutcome) : SendFlowResult :=
  if jsTrim input = "" then
    ⟨input, none, false⟩
  else
    let res := sendMessage roomPresent sessionPresent persist publish
    ⟨"", some (jsTrim input), res.alerted⟩

/-- Counterexample to C3 as stated: at input "hi" with an active room
and session and a publish step that throws, the caller is alerted but
the input text is cleared anyway — it is not preserved for retry. -/
theorem handleSend_clears_on_publish_failure_cex :
    (handleSendFlow "hi" true true PersistOutcome.ok PublishOutcome.threw).inputText = "" ∧
    (handleSendFlow "hi" true true PersistOutcome.ok PublishOutcome.threw).inputText ≠ "hi" ∧
    (handleSendFlow "hi" true true PersistOutcome.ok PublishOutcome.threw).alerted = true := by
  decide

/-- Claim C3 as amended: on a publish failure the caller is notified
(an alert is raised), but the input text is cleared unconditionally at
the moment a send of non-empty trimmed text is initiated, whatever the
outcome of the persist and publish steps — it is not preserved on
failure.  (On success the input is likewise cleared immediately.) -/
theorem handleSend_clears_unconditionally
    (input : String) (roomPresent sessionPresent : Bool)
    (persist : PersistOutcome) (publish : PublishOutcome)
    (hne : jsTrim input ≠ "") :
    (handleSendFlow input roomPresent sessionPresent persist publish).inputText = "" ∧
    (handleSendFlow input roomPresent sessionPresent persist publish).alerted
      = (sendMessage roomPresent sessionPresent persist publish).alerted ∧
    ((roomPresent = true ∧ sessionPresent = true ∧ publish = PublishOutcome.threw
        ∧ persist ≠ PersistOutcome.threw) →
      (handleSendFlow input roomPresent sessionPresent persist publish).alerted = true) := by
  refine ⟨by simp [handleSendFlow, hne], by simp [handleSendFlow, hne], ?_⟩
  rintro ⟨hr, hs, hq, hp⟩
  subst hr; subst hs; subst hq
  have h2 : (handleSendFlow input true true persist PublishOutcome.threw).alerted
      = (sendMessage true true persist PublishOutcome.threw).alerted := by
    simp [handleSendFlow, hne]
  rw [h2]
  cases persist with
  | ok => rfl
  | httpError => rfl
  | threw => exact absurd rfl hp

/-- Witness for the amended C3 theorem at concrete input "hi" with a
failing publish. -/
theorem handleSend_clears_unconditionally_witness :
    jsTrim "hi" ≠ "" ∧
    ((handleSendFlow "hi" true true PersistOutcome.ok PublishOutcome.threw).inputText = "" ∧
     (handleSendFlow "hi" true true PersistOutcome.ok PublishOutcome.threw).alerted
       = (sendMessage true true PersistOutcome.ok PublishOutcome.threw).alerted ∧
     ((true = true ∧ true = true ∧ PublishOutcome.threw = PublishOutcome.threw
         ∧ PersistOutcome.ok ≠ PersistOutcome.threw) →
       (handleSendFlow "hi" true true PersistOutcome.ok PublishOutcome.threw).alerted = true)) :=
  ⟨by decide,
    handleSend_clears_unconditionally "hi" true true PersistOutcome.ok PublishOutcome.threw
      (by decide)⟩

/-- A persisted chat message row, including the joined `flona_name` of
the author selected by the include clause of the route. -/
structure DbChatMessage where
  id : String
  text : String
  user_name : String
  user_email : String
  created_at : Int
  user_flona_name : Option String
deriving DecidableEq

/-- Insert a row into a list already sorted by ascending `created_at`,
keeping earlier rows first among equal keys. -/
def insertByCreatedAt (m : DbChatMessage) : List DbChatMessage → List DbChatMessage
  | [] => [m]
  | x :: xs =>
    if m.created_at ≤ x.created_at then m :: x :: xs else x :: insertByCreatedAt m xs

/-- Sort rows by ascending `created_at` (the orderBy ascending clause of
the route query). -/
def sortByCreatedAt : List DbChatMessage → List DbChatMessage
  | [] => []
  | m :: rest => insertByCreatedAt m (sortByCreatedAt rest)

/-- The per-row transformation of the route to the frontend shape:
`userName: msg.user.flona_name || msg.user_name`. -/
def formatDbMessage (m : DbChatMessage) : ChatMessage :=
  { id := m.id
    text := m.text
    userName :=
      match m.user_flona_name with
      | some n => if n = "" then m.user_name else n
      | none => m.user_name
    userEmail := m.user_email
    timestamp := m.created_at }

/-- `GET /api/messages` (`src/unnamed/part_002` lines 6-37): query the
store ordered by ascending creation time, take 100 rows, and map each
to the frontend format. -/
def getMessages (store : List DbChatMessage) : List ChatMessage :=
  ((sortByCreatedAt store).take 100).map formatDbMessage

/-- A persisted store holding 101 messages with ids "0".."100" and
creation times 0..100: one more message than the page size of the route. -/
def demoStore : List DbChatMessage :=
  (List.range 101).map
    (fun i => ⟨Nat.repr i, "t", "u", "e@x", (i : Int), none⟩)

/-- Claim C2 evaluated at the failing input: with 101 persisted
messages the route returns 100 rows, but they are the 100 oldest ones —
the newest message (id "100") is persisted yet absent from the result,
while the oldest (id "0") is present.  The claim (and the own source
comment of the route, "Load last 100 messages") requires the most
recent 100, which
would contain id "100" and omit id "0". -/
theorem getMessages_returns_oldest_not_newest :
    (getMessages demoStore).length = 100 ∧
    (demoStore.map DbChatMessage.id).contains "100" = true ∧
    ((getMessages demoStore).map ChatMessage.id).contains "100" = false ∧
    ((getMessages demoStore).map ChatMessage.id).contains "0" = true := by
  decide
